import Mathlib

/-!
Verification of the Shagoon billing application's Remote SQL Gateway and
Transactional Bill-Persistence Layer.

The TypeScript source is shallowly embedded:

* `src/config/database.ts` : the D1 client's `batch` method (`D1batch`) and
  `initializeDatabase` (a process-state transformer counting constructed
  clients and bootstrap runs).
* `src/pages/api/bills/index.ts` (the revision importing
  `extractNumericValue`) : the `POST` create pipeline (`postBills`,
  `createBill`, `processItems`) over an in-memory store, recording the
  network calls it issues in order.
* `src/pages/api/bills/[id].ts` : the `PUT` partial-update endpoint
  (`updateBillEP`), including the dynamic SET-clause construction
  (`applyHeader`, `anyUpdateField`) and the delete-then-reinsert item
  replacement (`processUItems`).
* `generateUniqueBillNumber` and the customer-search `GET` endpoint
  (`searchCustomers`), embedding the SQL they issue (ORDER BY id DESC
  LIMIT 1; GROUP BY customer_name with MAX(id), ORDER BY name, LIMIT 10)
  as list operations. Row ids are assumed unique, as the database's
  AUTOINCREMENT primary key guarantees.

JavaScript value coercions are made explicit: absent object properties are
`Option.none`, JS string falsiness is equality with `""`, JS number
falsiness is equality with `0`, and `parseInt` / first-number extraction
are modelled character by character.
-/

deriving instance DecidableEq for Except

namespace Shagoon

/-! ## D1 client: `batch` (src/config/database.ts) -/

/-- One parameterized SQL statement, as passed to `D1DatabaseClient.batch`. -/
structure Stmt where
  sql : String
  params : List String
deriving DecidableEq

/-- The shape of the remote `/query` endpoint's reply that `batch` inspects:
the HTTP status (`response.ok`), the body's `success` flag, the first
reported error message (`result.errors?.[0]?.message`) and the result sets. -/
structure BatchResp where
  httpOk : Bool
  success : Bool
  firstErrorMsg : String
  resultSets : List String
deriving DecidableEq

/-- `D1DatabaseClient.batch`: serializes the whole statement list into a
single HTTP POST (`body: JSON.stringify(statements)`), then inspects the one
response: non-2xx throws `D1 API error`, a `success: false` body throws
`D1 batch failed: <first error message>`, otherwise the result sets are
returned. The second component is the list of HTTP request bodies sent. -/
def D1batch (send : List Stmt → BatchResp) (stmts : List Stmt) :
    Except String (List String) × List (List Stmt) :=
  let resp := send stmts
  if !resp.httpOk then
    (.error "D1 API error", [stmts])
  else if !resp.success then
    (.error ("D1 batch failed: " ++ resp.firstErrorMsg), [stmts])
  else
    (.ok resp.resultSets, [stmts])

/-- First failure produced by executing the statements one at a time. -/
def firstFailure (exec : Stmt → Except String Unit) : List Stmt → Option String
  | [] => none
  | s :: rest =>
    match exec s with
    | .error m => some m
    | .ok _ => firstFailure exec rest

/-- A remote endpoint that executes the submitted statements sequentially and
reports the first failure's message in the response body (the behaviour the
Cloudflare endpoint provides; the client itself never sees per-statement
progress). -/
def seqServer (exec : Stmt → Except String Unit) (stmts : List Stmt) : BatchResp :=
  match firstFailure exec stmts with
  | some m => ⟨true, false, m, []⟩
  | none => ⟨true, true, "", stmts.map (·.sql)⟩

/-- Concrete statements for the batch counterexample. -/
def stmtA : Stmt := ⟨"INSERT INTO bill_items VALUES (1)", []⟩

def stmtB : Stmt := ⟨"INSERT INTO bill_items VALUES (2)", []⟩

/-- A backend on which the first statement fails. -/
def execFailFirst (s : Stmt) : Except String Unit :=
  if s = stmtA then .error "boom" else .ok ()

/-- A backend on which the second statement fails. -/
def execFailSecond (s : Stmt) : Except String Unit :=
  if s = stmtB then .error "boom" else .ok ()

/-! ## `initializeDatabase` (src/config/database.ts) -/

/-- The three required configuration values (empty string models an unset
environment variable, which is falsy in JS). -/
structure DbConfig where
  accountId : String
  databaseId : String
  apiToken : String
deriving DecidableEq

/-- `validateConfig`'s list of missing required environment variables. -/
def missingVars (c : DbConfig) : List String :=
  (if c.accountId = "" then ["CLOUDFLARE_ACCOUNT_ID"] else []) ++
  (if c.databaseId = "" then ["CLOUDFLARE_D1_DATABASE_ID"] else []) ++
  (if c.apiToken = "" then ["CLOUDFLARE_API_TOKEN"] else [])

/-- Process-wide observable state: how many `D1DatabaseClient` objects have
been constructed and how many times `initializeTables` has been started. -/
structure ProcState where
  clientsCreated : Nat
  bootstrapRuns : Nat
deriving DecidableEq

/-- A client object, identified by its construction number (two calls to
`new D1DatabaseClient(...)` yield two distinct objects). -/
structure ClientHandle where
  instanceId : Nat
deriving DecidableEq

/-- `initializeDatabase`: validates the config (throwing on missing values),
constructs a new `D1DatabaseClient`, and fires `initializeTables(client)`.
The source has no cache and no guard: every call performs all three steps. -/
def initializeDatabase (cfg : DbConfig) (s : ProcState) :
    Except String (ClientHandle × ProcState) :=
  if missingVars cfg ≠ [] then
    .error ("Missing required environment variables: " ++
      String.intercalate ", " (missingVars cfg))
  else
    .ok (⟨s.clientsCreated⟩, ⟨s.clientsCreated + 1, s.bootstrapRuns + 1⟩)

/-- A fully populated configuration. -/
def goodCfg : DbConfig := ⟨"acc", "db", "tok"⟩

/-! ## Shared JS value helpers -/

/-- Value of a digit list read in base 10. -/
def digitsToNat (l : List Char) : Nat :=
  l.foldl (fun a c => a * 10 + (c.toNat - 48)) 0

/-- Modelled from the spec: `extractNumericValue` is imported from
`config/database.ts` by both bill routes, but the revision of that file
defining it is not in the sources. Per the spec's first-number extraction
("numeric extraction takes the first number found in the string", "pulls the
first numeric substring out of a free-text field"), it scans for the first
digit run and reads it, with an optional fractional part, returning 0 when
the text contains no number. -/
def firstNumberAux : List Char → Option ℚ
  | [] => none
  | c :: rest =>
    if c.isDigit then
      let ds := c :: rest.takeWhile Char.isDigit
      let rest2 := rest.dropWhile Char.isDigit
      match rest2 with
      | '.' :: r3 =>
        let fs := r3.takeWhile Char.isDigit
        some ((digitsToNat ds : ℚ) + (digitsToNat fs : ℚ) / ((10 : ℚ) ^ fs.length))
      | _ => some (digitsToNat ds : ℚ)
    else
      firstNumberAux rest

/-- Modelled from the spec: see `firstNumberAux`. -/
def extractNumericValue (s : String) : ℚ :=
  match firstNumberAux s.data with
  | none => 0
  | some q => q

/-- ASCII whitespace, as JS `trim` and `parseInt` skip it. -/
def isWS (c : Char) : Bool :=
  c = ' ' ∨ c = '\t' ∨ c = '\n' ∨ c = '\r'

/-- JS `String.prototype.trim`. -/
def jsTrim (s : String) : String :=
  ⟨((s.data.dropWhile isWS).reverse.dropWhile isWS).reverse⟩

/-- JS `parseInt(s)` for decimal input: skip leading whitespace, read an
optional sign and then the longest leading digit run; `none` models `NaN`. -/
def leadingNat (l : List Char) : Option Nat :=
  let ds := l.takeWhile Char.isDigit
  if ds = [] then none else some (digitsToNat ds)

def jsParseInt (s : String) : Option Int :=
  let l := s.data.dropWhile (fun c => c = ' ' ∨ c = '\t' ∨ c = '\n' ∨ c = '\r')
  match l with
  | '-' :: rest => (leadingNat rest).map (fun n => -(n : Int))
  | '+' :: rest => (leadingNat rest).map (fun n => (n : Int))
  | _ => (leadingNat l).map (fun n => (n : Int))

/-! ## Bill create (src/pages/api/bills/index.ts, POST and createBill) -/

/-- One element of the request's `items` array. Absent properties are `none`;
`quantity` arrives as free text, prices as numbers. -/
structure CreateItem where
  sr_no : Option Nat
  product_name : Option String
  product_description : Option String
  product_category : Option String
  hsn_code : Option String
  unit_price : Option ℚ
  quantity : Option String
  total_price : Option ℚ
  unit : Option String
deriving DecidableEq

/-- The create request body, restricted to the fields the handler inspects.
For the three required fields an empty string models a missing or falsy
value (the source checks `!billData[field]`). -/
structure CreatePayload where
  bill_number : Option String
  customer_name : String
  customer_phone : String
  invoice_date : String
  items : Option (List CreateItem)
deriving DecidableEq

/-- A persisted `bill_items` row, with the column values `createBill` binds. -/
structure ItemRow where
  bill_id : Nat
  sr_no : Nat
  product_name : String
  product_description : Option String
  product_category : String
  hsn_code : Option String
  unit_price : ℚ
  quantity : String
  total_price : ℚ
  unit : String
deriving DecidableEq

/-- A persisted `bills` header row (the claims never inspect individual
header columns, so the bound payload is kept whole). -/
structure BillRow where
  id : Nat
  data : CreatePayload
deriving DecidableEq

/-- The in-memory image of the remote database reachable from the create
route, plus a backend oracle saying whether the `bill_items` batch INSERT
reports failure (the one remote-side failure the rollback also covers). -/
structure Store where
  nextId : Nat
  bills : List BillRow
  items : List ItemRow
  itemBatchFails : Bool
deriving DecidableEq

/-- Network calls the create route issues, in order. -/
inductive NetCall
  | initTables
  | insertBill
  | batchInsertItems
  | deleteBill
deriving DecidableEq

inductive PostResult
  | badRequest (msg : String) (missingFields : List String)
  | serverError (msg : String)
  | created (billId : Nat) (itemsCount : Nat)
deriving DecidableEq

def PostResult.isCreated : PostResult → Bool
  | .created _ _ => true
  | _ => false

/-- The POST handler's `missingFields` computation over
`['customer_name', 'customer_phone', 'invoice_date']`. -/
def missingRequired (p : CreatePayload) : List String :=
  (if p.customer_name = "" then ["customer_name"] else []) ++
  (if p.customer_phone = "" then ["customer_phone"] else []) ++
  (if p.invoice_date = "" then ["invoice_date"] else [])

/-- `item.quantity?.toString() || '1'`. -/
def quantityTextOf (it : CreateItem) : String :=
  match it.quantity with
  | none => "1"
  | some q => if q = "" then "1" else q

/-- `item.unit?.trim() || 'Nos'`. -/
def unitOf (it : CreateItem) : String :=
  match it.unit with
  | none => "Nos"
  | some u => if jsTrim u = "" then "Nos" else jsTrim u

/-- `item.product_description?.trim() || null` (and likewise for hsn_code). -/
def trimOrNull (o : Option String) : Option String :=
  match o with
  | none => none
  | some d => if jsTrim d = "" then none else some (jsTrim d)

/-- `createBill`'s per-item loop: coerce the fields, validate them in source
order, and accumulate the parameter rows for the batch INSERT; the first
invalid item aborts with the thrown message. -/
def processItems (billId : Nat) : Nat → List CreateItem → Except String (List ItemRow)
  | _, [] => .ok []
  | idx, it :: rest =>
    let unitPrice : ℚ := it.unit_price.getD 0
    let quantityText := quantityTextOf it
    let quantityNumeric := extractNumericValue quantityText
    let totalPrice : ℚ := it.total_price.getD 0
    let srNo := it.sr_no.getD (idx + 1)
    if jsTrim (it.product_name.getD "") = "" then
      .error ("Item " ++ toString (idx + 1) ++ ": Product name is required")
    else if jsTrim (it.product_category.getD "") = "" then
      .error ("Item " ++ toString (idx + 1) ++ ": Product category is required")
    else if unitPrice ≤ 0 then
      .error ("Item " ++ toString (idx + 1) ++ ": Unit price must be greater than 0")
    else if quantityNumeric ≤ 0 then
      .error ("Item " ++ toString (idx + 1) ++ ": Quantity must be greater than 0")
    else if totalPrice ≤ 0 then
      .error ("Item " ++ toString (idx + 1) ++ ": Total price must be greater than 0")
    else
      match processItems billId (idx + 1) rest with
      | .error e => .error e
      | .ok rows =>
        .ok ({ bill_id := billId
               sr_no := srNo
               product_name := jsTrim (it.product_name.getD "")
               product_description := trimOrNull it.product_description
               product_category := jsTrim (it.product_category.getD "")
               hsn_code := trimOrNull it.hsn_code
               unit_price := unitPrice
               quantity := quantityText
               total_price := totalPrice
               unit := unitOf it } :: rows)

/-- The compensating action: `DELETE FROM bills WHERE id = ?`. -/
def rollbackHeader (st : Store) (billId : Nat) : Store :=
  { st with bills := st.bills.filter (fun b => b.id ≠ billId) }

/-- `createBill`: INSERT the header (obtaining the generated id), then
validate and batch-insert the items; on any item failure delete the header
again and propagate the error. Returns the HTTP-level result, the new store,
and the network calls made. -/
def createBill (st : Store) (p : CreatePayload) : PostResult × Store × List NetCall :=
  let billId := st.nextId
  let st1 : Store :=
    { st with nextId := st.nextId + 1, bills := st.bills ++ [⟨billId, p⟩] }
  match p.items with
  | none => (.created billId 0, st1, [.insertBill])
  | some its =>
    if its.isEmpty then
      (.created billId 0, st1, [.insertBill])
    else
      match processItems billId 0 its with
      | .error e =>
        (.serverError e, rollbackHeader st1 billId, [.insertBill, .deleteBill])
      | .ok rows =>
        if st.itemBatchFails then
          (.serverError "D1 batch failed: Unknown error", rollbackHeader st1 billId,
            [.insertBill, .batchInsertItems, .deleteBill])
        else
          (.created billId its.length, { st1 with items := st1.items ++ rows },
            [.insertBill, .batchInsertItems])

/-- The POST handler: reject missing required fields, then a missing or empty
items array, both before touching the database; only then initialize the
database (whose table bootstrap is itself remote traffic) and run
`createBill`. -/
def postBills (st : Store) (p : CreatePayload) : PostResult × Store × List NetCall :=
  if missingRequired p ≠ [] then
    (.badRequest "Missing required fields" (missingRequired p), st, [])
  else
    match p.items with
    | none => (.badRequest "At least one item is required" [], st, [])
    | some [] => (.badRequest "At least one item is required" [], st, [])
    | some _ =>
      let r := createBill st p
      (r.1, r.2.1, .initTables :: r.2.2)

/-- An empty database whose backend accepts batches. -/
def emptyStore : Store := ⟨1, [], [], false⟩

/-- Create payload whose only flaw is a zero unit price on its single item:
every header-level check passes, so the rejection happens inside
`createBill`, after the header INSERT went out. -/
def zeroPricePayload : CreatePayload :=
  { bill_number := some "711"
    customer_name := "Rajesh Kumar"
    customer_phone := "+91 98765 43210"
    invoice_date := "2025-07-06"
    items := some [{ sr_no := some 1
                     product_name := some "Chair"
                     product_description := none
                     product_category := some "Chair"
                     hsn_code := none
                     unit_price := some 0
                     quantity := some "12"
                     total_price := some 19200
                     unit := none }] }

/-- A fully valid one-item create payload. -/
def validPayload : CreatePayload :=
  { bill_number := some "711"
    customer_name := "Rajesh Kumar"
    customer_phone := "+91 98765 43210"
    invoice_date := "2025-07-06"
    items := some [{ sr_no := some 1
                     product_name := some "Chair"
                     product_description := none
                     product_category := some "Chair"
                     hsn_code := none
                     unit_price := some 1600
                     quantity := some "12"
                     total_price := some 19200
                     unit := none }] }

/-! ## Bill update (src/pages/api/bills/[id].ts, PUT)

The dynamic `UPDATE bills SET ...` built from the payload's present fields
acts on the single row with the given id; its effect is embedded field by
field: a field is assigned when the payload has the property
(`hasOwnProperty`), i.e. when the `Option` is `some`. Column values are kept
as opaque strings, since the endpoint binds them verbatim. -/

/-- A `bills` row as the update endpoint sees it. -/
structure UBill where
  id : Nat
  bill_number : String
  invoice_date : String
  challan_number : String
  challan_date : String
  po_number : String
  po_date : String
  dispatch_details : String
  customer_name : String
  customer_code : String
  customer_phone : String
  customer_email : String
  customer_address : String
  customer_gst_number : String
  vendor_code : String
  hsn_code : String
  subtotal : String
  cgst_percentage : String
  cgst_amount : String
  sgst_percentage : String
  sgst_amount : String
  igst_percentage : String
  igst_amount : String
  total_tax_amount : String
  discount_percentage : String
  discount_amount : String
  total_amount : String
  payment_method : String
  payment_status : String
  payment_terms : String
  notes : String
  terms_and_conditions : String
  bank_name : String
  bank_account_number : String
  bank_branch : String
  bank_ifsc_code : String
  bank_account_type : String
  created_at : String
  updated_at : String
deriving DecidableEq

/-- The structured `bank_details` object of an update payload. -/
structure UBank where
  bank_name : Option String
  account_number : Option String
  branch : Option String
  ifsc_code : Option String
  account_type : Option String
deriving DecidableEq

/-- One element of an update payload's `items` array. -/
structure UItemPayload where
  sr_no : Option Nat
  product_name : Option String
  product_description : Option String
  product_category : Option String
  hsn_code : Option String
  unit_price : Option ℚ
  quantity : Option String
  total_price : Option ℚ
  unit : Option String
deriving DecidableEq

/-- The update request body: one `Option` per recognized field of the
endpoint's `billFields` list, the bank fields (structured object and
individual columns), and the optional `items` array. -/
structure UPayload where
  invoice_date : Option String
  challan_number : Option String
  challan_date : Option String
  po_number : Option String
  po_date : Option String
  dispatch_details : Option String
  customer_name : Option String
  customer_code : Option String
  customer_phone : Option String
  customer_email : Option String
  customer_address : Option String
  customer_gst_number : Option String
  vendor_code : Option String
  hsn_code : Option String
  subtotal : Option String
  cgst_percentage : Option String
  cgst_amount : Option String
  sgst_percentage : Option String
  sgst_amount : Option String
  igst_percentage : Option String
  igst_amount : Option String
  total_tax_amount : Option String
  discount_percentage : Option String
  discount_amount : Option String
  total_amount : Option String
  payment_method : Option String
  payment_status : Option String
  payment_terms : Option String
  notes : Option String
  terms_and_conditions : Option String
  bank_details : Option UBank
  bank_name : Option String
  bank_account_number : Option String
  bank_branch : Option String
  bank_ifsc_code : Option String
  bank_account_type : Option String
  items : Option (List UItemPayload)
deriving DecidableEq

/-- A persisted `bill_items` row written by the update endpoint. -/
structure UItemRow where
  bill_id : Nat
  sr_no : Nat
  product_name : String
  product_description : String
  product_category : String
  hsn_code : String
  unit_price : ℚ
  quantity : String
  total_price : ℚ
  unit : String
deriving DecidableEq

/-- The in-memory image of the database reachable from the update route. -/
structure UStore where
  bills : List UBill
  items : List UItemRow
deriving DecidableEq

inductive UResult
  | notFound
  | success (bill : UBill) (billItems : List UItemRow)
deriving DecidableEq

def respBill : UResult → Option UBill
  | .notFound => none
  | .success b _ => some b

def respItems : UResult → Option (List UItemRow)
  | .notFound => none
  | .success _ l => some l

/-- JS truthiness of a possibly-absent string value. -/
def truthyS : Option String → Bool
  | none => false
  | some s => s ≠ ""

/-- JS truthiness of a possibly-absent number value. -/
def truthyQ : Option ℚ → Bool
  | none => false
  | some q => q ≠ 0

/-- A bank sub-field is applied when
`value !== undefined && value !== null && value !== ''`. -/
def applyBank (o : Option String) (old : String) : String :=
  match o with
  | none => old
  | some v => if v = "" then old else v

/-- Whether the dynamic SET clause received at least one field besides
`updated_at` (the endpoint's `updateFields.length > 1` test). -/
def anyUpdateField (p : UPayload) : Bool :=
  p.invoice_date.isSome || p.challan_number.isSome || p.challan_date.isSome ||
  p.po_number.isSome || p.po_date.isSome || p.dispatch_details.isSome ||
  p.customer_name.isSome || p.customer_code.isSome || p.customer_phone.isSome ||
  p.customer_email.isSome || p.customer_address.isSome ||
  p.customer_gst_number.isSome || p.vendor_code.isSome || p.hsn_code.isSome ||
  p.subtotal.isSome || p.cgst_percentage.isSome || p.cgst_amount.isSome ||
  p.sgst_percentage.isSome || p.sgst_amount.isSome || p.igst_percentage.isSome ||
  p.igst_amount.isSome || p.total_tax_amount.isSome ||
  p.discount_percentage.isSome || p.discount_amount.isSome ||
  p.total_amount.isSome || p.payment_method.isSome || p.payment_status.isSome ||
  p.payment_terms.isSome || p.notes.isSome || p.terms_and_conditions.isSome ||
  (match p.bank_details with
   | some bd =>
     truthyS bd.bank_name || truthyS bd.account_number || truthyS bd.branch ||
     truthyS bd.ifsc_code || truthyS bd.account_type
   | none =>
     p.bank_name.isSome || p.bank_account_number.isSome ||
     p.bank_branch.isSome || p.bank_ifsc_code.isSome ||
     p.bank_account_type.isSome)

/-- Effect of the executed `UPDATE bills SET ...` on the targeted row: each
present `billFields` entry is assigned, the bank columns follow the
`bank_details`-object-takes-precedence rule, and `updated_at` is always in
the SET list. -/
def applyHeader (b : UBill) (p : UPayload) (now : String) : UBill :=
  let b1 : UBill :=
    { b with
      invoice_date := p.invoice_date.getD b.invoice_date
      challan_number := p.challan_number.getD b.challan_number
      challan_date := p.challan_date.getD b.challan_date
      po_number := p.po_number.getD b.po_number
      po_date := p.po_date.getD b.po_date
      dispatch_details := p.dispatch_details.getD b.dispatch_details
      customer_name := p.customer_name.getD b.customer_name
      customer_code := p.customer_code.getD b.customer_code
      customer_phone := p.customer_phone.getD b.customer_phone
      customer_email := p.customer_email.getD b.customer_email
      customer_address := p.customer_address.getD b.customer_address
      customer_gst_number := p.customer_gst_number.getD b.customer_gst_number
      vendor_code := p.vendor_code.getD b.vendor_code
      hsn_code := p.hsn_code.getD b.hsn_code
      subtotal := p.subtotal.getD b.subtotal
      cgst_percentage := p.cgst_percentage.getD b.cgst_percentage
      cgst_amount := p.cgst_amount.getD b.cgst_amount
      sgst_percentage := p.sgst_percentage.getD b.sgst_percentage
      sgst_amount := p.sgst_amount.getD b.sgst_amount
      igst_percentage := p.igst_percentage.getD b.igst_percentage
      igst_amount := p.igst_amount.getD b.igst_amount
      total_tax_amount := p.total_tax_amount.getD b.total_tax_amount
      discount_percentage := p.discount_percentage.getD b.discount_percentage
      discount_amount := p.discount_amount.getD b.discount_amount
      total_amount := p.total_amount.getD b.total_amount
      payment_method := p.payment_method.getD b.payment_method
      payment_status := p.payment_status.getD b.payment_status
      payment_terms := p.payment_terms.getD b.payment_terms
      notes := p.notes.getD b.notes
      terms_and_conditions := p.terms_and_conditions.getD b.terms_and_conditions }
  let b2 : UBill :=
    match p.bank_details with
    | some bd =>
      { b1 with
        bank_name := applyBank bd.bank_name b1.bank_name
        bank_account_number := applyBank bd.account_number b1.bank_account_number
        bank_branch := applyBank bd.branch b1.bank_branch
        bank_ifsc_code := applyBank bd.ifsc_code b1.bank_ifsc_code
        bank_account_type := applyBank bd.account_type b1.bank_account_type }
    | none =>
      { b1 with
        bank_name := p.bank_name.getD b1.bank_name
        bank_account_number := p.bank_account_number.getD b1.bank_account_number
        bank_branch := p.bank_branch.getD b1.bank_branch
        bank_ifsc_code := p.bank_ifsc_code.getD b1.bank_ifsc_code
        bank_account_type := p.bank_account_type.getD b1.bank_account_type }
  { b2 with updated_at := now }

/-- The endpoint's `hasData` guard: `item.product_description ||
item.product_name || item.quantity || item.unit_price || item.total_price`. -/
def hasData (it : UItemPayload) : Bool :=
  truthyS it.product_description || truthyS it.product_name ||
  truthyS it.quantity || truthyQ it.unit_price || truthyQ it.total_price

/-- `item.quantity || '0'`. -/
def uQuantityOf (it : UItemPayload) : String :=
  match it.quantity with
  | none => "0"
  | some q => if q = "" then "0" else q

/-- The row an update item is written as: each `||`-defaulted parameter of
the endpoint's INSERT, including the
`parseFloat(item.total_price) || (extractNumericValue(item.quantity || '0')
* parseFloat(item.unit_price || '0'))` fallback. -/
def buildURow (billId : Nat) (i : Nat) (it : UItemPayload) : UItemRow :=
  let unitPrice : ℚ := it.unit_price.getD 0
  let fallbackTotal : ℚ := extractNumericValue (uQuantityOf it) * unitPrice
  { bill_id := billId
    sr_no := match it.sr_no with
      | none => i + 1
      | some n => if n = 0 then i + 1 else n
    product_name :=
      if truthyS it.product_name then it.product_name.getD ""
      else if truthyS it.product_description then it.product_description.getD ""
      else ""
    product_description := (it.product_description).getD ""
    product_category :=
      if truthyS it.product_category then it.product_category.getD "" else "General"
    hsn_code := (it.hsn_code).getD ""
    unit_price := unitPrice
    quantity := uQuantityOf it
    total_price := match it.total_price with
      | none => fallbackTotal
      | some t => if t = 0 then fallbackTotal else t
    unit := if truthyS it.unit then it.unit.getD "" else "Nos" }

/-- The item-replacement loop: every non-empty item of the supplied array is
inserted (in order, with its original index for the `sr_no` fallback);
completely empty items are skipped. -/
def processUItems (billId : Nat) (l : List UItemPayload) : List UItemRow :=
  (l.enum.filter (fun x => hasData x.2)).map (fun x => buildURow billId x.1 x.2)

/-- The PUT handler: 404 when the id is absent; otherwise run the dynamic
header UPDATE only when at least one recognized field is present, replace
the item set when an `items` array (even an empty one) is supplied, and
return the re-fetched bill with its items. -/
def updateBillEP (st : UStore) (id : Nat) (p : UPayload) (now : String) :
    UResult × UStore :=
  match st.bills.find? (fun b => b.id == id) with
  | none => (.notFound, st)
  | some b =>
    let b' := if anyUpdateField p then applyHeader b p now else b
    let bills' := st.bills.map (fun x => if x.id == id then b' else x)
    let items' :=
      match p.items with
      | none => st.items
      | some l => st.items.filter (fun r => r.bill_id ≠ id) ++ processUItems id l
    (.success b' (items'.filter (fun r => r.bill_id == id)),
      { bills := bills', items := items' })

/-! ## Bill numbering and customer lookup

Both read-only services issue a single SELECT; the SQL is embedded as list
operations over the `bills` rows they project (ids are unique, being the
table's AUTOINCREMENT primary key). -/

/-- A `bills` row restricted to the columns these services read. -/
structure SBill where
  id : Nat
  bill_number : String
  customer_name : String
  customer_code : String
  customer_phone : String
  customer_email : String
  customer_address : String
  customer_gst_number : String
deriving DecidableEq

/-- `SELECT ... FROM bills ORDER BY id DESC LIMIT 1`. -/
def latestBill : List SBill → Option SBill
  | [] => none
  | b :: bs =>
    match latestBill bs with
    | none => some b
    | some c => if c.id < b.id then some b else some c

/-- `generateUniqueBillNumber`: read the most recently created bill; if its
number `parseInt`s, answer that number plus one, stringified; with no bills,
or a non-numeric latest number, answer `"1"`. -/
def generateUniqueBillNumber (bills : List SBill) : String :=
  match latestBill bills with
  | none => "1"
  | some b =>
    match jsParseInt b.bill_number with
    | some n => toString (n + 1)
    | none => "1"

/-- SQLite `LIKE` folds ASCII letters only. -/
def asciiLower (c : Char) : Char :=
  if 'A' ≤ c ∧ c ≤ 'Z' then Char.ofNat (c.toNat + 32) else c

def lowerData (s : String) : List Char :=
  s.data.map asciiLower

def isPrefixB : List Char → List Char → Bool
  | [], _ => true
  | _ :: _, [] => false
  | a :: as, b :: bs => a == b && isPrefixB as bs

def containsSub (p : List Char) : List Char → Bool
  | [] => p.isEmpty
  | c :: rest => isPrefixB p (c :: rest) || containsSub p rest

/-- Whether `f` accepts some suffix of the list (used for the `%` wildcard,
which consumes zero or more characters). -/
def tryAllSuffixes (f : List Char → Bool) : List Char → Bool
  | [] => f []
  | c :: s => f (c :: s) || tryAllSuffixes f s

/-- SQL `LIKE` pattern matching on case-folded character lists: `%` matches
any sequence of zero or more characters, `_` matches exactly one character,
and any other pattern character matches itself. -/
def likeMatch : List Char → List Char → Bool
  | [], s => s.isEmpty
  | p :: ps, s =>
    if p = '%' then
      tryAllSuffixes (fun t => likeMatch ps t) s
    else if p = '_' then
      match s with
      | [] => false
      | _ :: s' => likeMatch ps s'
    else
      match s with
      | [] => false
      | c :: s' => (p == c) && likeMatch ps s'

/-- `customer_name LIKE ?` with the bound pattern `'%' + q + '%'`: SQL LIKE
matching of the padded pattern against the name, both ASCII-case-folded
(`%` and `_` inside the query keep their wildcard meaning; for a query
without them this is exactly case-insensitive substring containment, see
`likeMatch_wrap_eq_containsSub`). -/
def likeContains (q name : String) : Bool :=
  likeMatch ('%' :: (lowerData q ++ ['%'])) (lowerData name)

/-- A row of the search endpoint's result set. -/
structure CustomerRow where
  customer_name : String
  customer_code : String
  customer_phone : String
  customer_email : String
  customer_address : String
  customer_gst_number : String
deriving DecidableEq

def projCustomer (b : SBill) : CustomerRow :=
  ⟨b.customer_name, b.customer_code, b.customer_phone, b.customer_email,
    b.customer_address, b.customer_gst_number⟩

/-- `WHERE customer_name LIKE ?`. -/
def matchingBills (bills : List SBill) (q : String) : List SBill :=
  bills.filter (fun b => likeContains q b.customer_name)

/-- The inner `GROUP BY customer_name` / `MAX(id)` subquery joined back on
`b.id = recent_bills.max_id`, for one group: the matching bill with that
exact name and the greatest id. -/
def mostRecentFor (bills : List SBill) (q name : String) : Option SBill :=
  latestBill ((matchingBills bills q).filter (fun b => b.customer_name == name))

/-- SQLite's BINARY collation on text, embedded as lexicographic codepoint
order (UTF-8 byte order and codepoint order agree). -/
def listLex : List Char → List Char → Bool
  | [], _ => true
  | _ :: _, [] => false
  | a :: as, b :: bs =>
    if a.toNat < b.toNat then true
    else if b.toNat < a.toNat then false
    else listLex as bs

def strLe (a b : String) : Bool :=
  listLex a.data b.data

/-- Insertion into a `strLe`-sorted list. -/
def insertStr (x : String) : List String → List String
  | [] => [x]
  | y :: ys => if strLe x y then x :: y :: ys else y :: insertStr x ys

/-- `ORDER BY customer_name ASC` on the group names. -/
def sortNames : List String → List String
  | [] => []
  | x :: xs => insertStr x (sortNames xs)

/-- The distinct matching names, `ORDER BY customer_name ASC`, `LIMIT 10`. -/
def topNames (bills : List SBill) (q : String) : List String :=
  (sortNames ((matchingBills bills q).map (fun b => b.customer_name)).dedup).take 10

/-- The joined, ordered, limited result set. -/
def searchResults (bills : List SBill) (q : String) : List CustomerRow :=
  (topNames bills q).filterMap (fun n => (mostRecentFor bills q n).map projCustomer)

/-- The search endpoint: reject `!query || query.trim().length < 3`, then
run the distinct-customer query. -/
def searchCustomers (bills : List SBill) (q : String) :
    Except String (List CustomerRow) :=
  if (jsTrim q).length < 3 then
    .error "A search query of at least 3 characters is required."
  else
    .ok (searchResults bills q)

/-! ## Concrete fixtures for witnesses and counterexamples -/

/-- A catch-all update payload with nothing set. -/
def emptyUPayload : UPayload :=
  { invoice_date := none, challan_number := none, challan_date := none
    po_number := none, po_date := none, dispatch_details := none
    customer_name := none, customer_code := none, customer_phone := none
    customer_email := none, customer_address := none
    customer_gst_number := none, vendor_code := none, hsn_code := none
    subtotal := none, cgst_percentage := none, cgst_amount := none
    sgst_percentage := none, sgst_amount := none, igst_percentage := none
    igst_amount := none, total_tax_amount := none
    discount_percentage := none, discount_amount := none
    total_amount := none, payment_method := none, payment_status := none
    payment_terms := none, notes := none, terms_and_conditions := none
    bank_details := none, bank_name := none, bank_account_number := none
    bank_branch := none, bank_ifsc_code := none, bank_account_type := none
    items := none }

/-- A stored bill header used by the update fixtures. -/
def bill710 : UBill :=
  { id := 1, bill_number := "710", invoice_date := "2025-07-06"
    challan_number := "CH-710", challan_date := "2025-07-05"
    po_number := "PO-1", po_date := "2025-07-01", dispatch_details := "road"
    customer_name := "Rajesh Kumar", customer_code := "1001"
    customer_phone := "+91 98765 43210", customer_email := "r@example.com"
    customer_address := "Mumbai", customer_gst_number := "27A"
    vendor_code := "V1", hsn_code := "9403", subtotal := "19200"
    cgst_percentage := "9", cgst_amount := "1728", sgst_percentage := "9"
    sgst_amount := "1728", igst_percentage := "18", igst_amount := "0"
    total_tax_amount := "3456", discount_percentage := "0"
    discount_amount := "0", total_amount := "22656"
    payment_method := "upi", payment_status := "pending"
    payment_terms := "net 30", notes := "n", terms_and_conditions := "t"
    bank_name := "INDIAN BANK", bank_account_number := "641205735S"
    bank_branch := "MALAD EAST", bank_ifsc_code := "IDIB000M202"
    bank_account_type := "CURRENT A/C", created_at := "2025-07-06T00:00:00Z"
    updated_at := "2025-07-06T00:00:00Z" }

/-- A stored item row belonging to `bill710`. -/
def row710 : UItemRow :=
  { bill_id := 1, sr_no := 1, product_name := "MCD SS WOOD CHAIR"
    product_description := "Premium wooden chair", product_category := "Chair"
    hsn_code := "9403", unit_price := 1600, quantity := "12"
    total_price := 19200, unit := "Nos" }

/-- The update fixtures' store: one bill with one item. -/
def uStore1 : UStore := ⟨[bill710], [row710]⟩

/-- An update payload carrying only `payment_status`. -/
def payStatusPayload : UPayload :=
  { emptyUPayload with payment_status := some "paid" }

/-- An update payload whose single item has a product name but no prices:
`hasData` holds, so it is persisted, with both prices defaulting to 0. -/
def zeroPriceUPayload : UPayload :=
  { emptyUPayload with
      items := some [{ sr_no := none, product_name := some "Chair"
                       product_description := none, product_category := none
                       hsn_code := none, unit_price := none, quantity := none
                       total_price := none, unit := none }] }

/-- An update payload with an explicitly empty items array. -/
def emptyItemsUPayload : UPayload :=
  { emptyUPayload with items := some ([] : List UItemPayload) }

/-- The item row a successful create of `validPayload` persists. -/
def validRow : ItemRow :=
  { bill_id := 1, sr_no := 1, product_name := "Chair", product_description := none
    product_category := "Chair", hsn_code := none, unit_price := 1600
    quantity := "12", total_price := 19200, unit := "Nos" }

/-- The store state after a successful create of `validPayload`. -/
def validStoreAfter : Store := ⟨2, [⟨1, validPayload⟩], [validRow], false⟩

/-- Bills used by the search witnesses. -/
def sbRajesh : SBill := ⟨1, "710", "Rajesh Kumar", "c", "p", "e", "a", "g"⟩

def sbRajeev : SBill := ⟨2, "711", "rajeev", "c2", "p2", "e2", "a2", "g2"⟩

/-! ## Helper lemmas -/

theorem latestBill_eq_none {l : List SBill} (h : latestBill l = none) : l = [] := by
  cases l with
  | nil => rfl
  | cons a as =>
    cases h' : latestBill as with
    | none => simp [latestBill, h'] at h
    | some c =>
      simp only [latestBill, h'] at h
      by_cases hlt : c.id < a.id <;> simp [hlt] at h

theorem latestBill_mem {l : List SBill} : ∀ {b : SBill},
    latestBill l = some b → b ∈ l := by
  induction l with
  | nil => intro b h; simp [latestBill] at h
  | cons a as ih =>
    intro b h
    cases h' : latestBill as with
    | none =>
      simp only [latestBill, h'] at h
      simp at h
      simp [h]
    | some c =>
      simp only [latestBill, h'] at h
      by_cases hlt : c.id < a.id
      · simp [hlt] at h; simp [h]
      · simp [hlt] at h
        subst h
        exact List.mem_cons_of_mem a (ih h')

theorem latestBill_le {l : List SBill} : ∀ {b : SBill},
    latestBill l = some b → ∀ x ∈ l, x.id ≤ b.id := by
  induction l with
  | nil => intro b h; simp [latestBill] at h
  | cons a as ih =>
    intro b h x hx
    cases h' : latestBill as with
    | none =>
      have has : as = [] := latestBill_eq_none h'
      subst has
      simp [latestBill] at h
      subst h
      rcases List.mem_cons.mp hx with rfl | hxs
      · exact le_refl _
      · simp at hxs
    | some c =>
      simp only [latestBill, h'] at h
      by_cases hlt : c.id < a.id
      · simp [hlt] at h
        subst h
        rcases List.mem_cons.mp hx with rfl | hxs
        · exact le_refl _
        · exact le_of_lt (lt_of_le_of_lt (ih h' x hxs) hlt)
      · simp [hlt] at h
        subst h
        rcases List.mem_cons.mp hx with rfl | hxs
        · omega
        · exact ih h' x hxs

theorem latestBill_isSome {l : List SBill} (h : l ≠ []) : (latestBill l).isSome := by
  cases h' : latestBill l with
  | none => exact absurd (latestBill_eq_none h') h
  | some b => rfl

/-! ## C1: the batch operation -/

/-- C1 counterexample. The claim says `batch` executes statements
sequentially, stops at the first failure, and propagates a `BatchError`
naming the failing statement's 1-based index. On the two-statement batch
`[stmtA, stmtB]`: whether the backend reports the first or the second
statement as the failing one, the client propagates the identical generic
error `D1 batch failed: boom` (so the error cannot name the failing index),
and the single HTTP request it sends carries both statements (so statements
after the failing one are still submitted, not withheld). -/
theorem batch_claim_counterexample :
    (D1batch (seqServer execFailFirst) [stmtA, stmtB]).1 =
      .error "D1 batch failed: boom" ∧
    (D1batch (seqServer execFailSecond) [stmtA, stmtB]).1 =
      .error "D1 batch failed: boom" ∧
    firstFailure execFailFirst [stmtA, stmtB] = some "boom" ∧
    firstFailure execFailSecond [stmtA, stmtB] = some "boom" ∧
    (D1batch (seqServer execFailFirst) [stmtA, stmtB]).2 = [[stmtA, stmtB]] ∧
    (D1batch (seqServer execFailSecond) [stmtA, stmtB]).2 = [[stmtA, stmtB]] := by
  decide

/-- C1 (amended). `batch` submits the whole ordered statement list in one
HTTP request; when the backend (executing sequentially) reports a first
failure with message `m`, the client propagates the generic error
`D1 batch failed: m`, which carries no statement index, and the transmitted
request still contains every statement. -/
theorem batch_single_request_generic_error
    (exec : Stmt → Except String Unit) (stmts : List Stmt) (m : String)
    (h : firstFailure exec stmts = some m) :
    D1batch (seqServer exec) stmts =
      (.error ("D1 batch failed: " ++ m), [stmts]) := by
  simp [D1batch, seqServer, h]

/-- Witness for `batch_single_request_generic_error` at a concrete failing
batch. -/
theorem batch_single_request_generic_error_witness :
    firstFailure execFailSecond [stmtA, stmtB] = some "boom" ∧
    D1batch (seqServer execFailSecond) [stmtA, stmtB] =
      (.error ("D1 batch failed: " ++ "boom"), [[stmtA, stmtB]]) :=
  ⟨by decide, batch_single_request_generic_error execFailSecond [stmtA, stmtB] "boom" (by decide)⟩

/-! ## C4: initializeDatabase -/

/-- C4 counterexample. The claim says the first `initializeDatabase` call
bootstraps and every later call returns the same cached client without
re-running the bootstrap. In the code, starting from a fresh process state,
the first call constructs client 0 and runs the bootstrap once, and the
second call constructs the distinct client 1 and runs the bootstrap again
(bootstrapRuns reaches 2): nothing is cached and the bootstrap re-runs. -/
theorem initializeDatabase_claim_counterexample :
    initializeDatabase goodCfg ⟨0, 0⟩ = .ok (⟨0⟩, ⟨1, 1⟩) ∧
    initializeDatabase goodCfg ⟨1, 1⟩ = .ok (⟨1⟩, ⟨2, 2⟩) ∧
    (⟨0⟩ : ClientHandle) ≠ ⟨1⟩ := by
  decide

/-- C4 (amended). With a valid configuration, every call to
`initializeDatabase` constructs a fresh `D1DatabaseClient` and re-triggers
the table bootstrap: two successive calls return distinct client instances
and increase the bootstrap-run count by two. -/
theorem initializeDatabase_fresh_client_each_call
    (cfg : DbConfig) (s s1 s2 : ProcState) (c1 c2 : ClientHandle)
    (hcfg : missingVars cfg = [])
    (h1 : initializeDatabase cfg s = .ok (c1, s1))
    (h2 : initializeDatabase cfg s1 = .ok (c2, s2)) :
    c1 ≠ c2 ∧ s2.bootstrapRuns = s.bootstrapRuns + 2 ∧
      s2.clientsCreated = s.clientsCreated + 2 := by
  simp only [initializeDatabase, hcfg] at h1 h2
  simp at h1 h2
  obtain ⟨hc1, hs1⟩ := h1
  rw [← hs1] at h2
  simp at h2
  obtain ⟨hc2, hs2⟩ := h2
  refine ⟨?_, ?_, ?_⟩
  · rw [← hc1, ← hc2]
    intro hEq
    have := congrArg ClientHandle.instanceId hEq
    simp at this
  · rw [← hs2]
  · rw [← hs2]

/-- Witness for `initializeDatabase_fresh_client_each_call` at a concrete
configuration and fresh process state. -/
theorem initializeDatabase_fresh_client_each_call_witness :
    missingVars goodCfg = [] ∧
    initializeDatabase goodCfg ⟨0, 0⟩ = .ok (⟨0⟩, ⟨1, 1⟩) ∧
    initializeDatabase goodCfg ⟨1, 1⟩ = .ok (⟨1⟩, ⟨2, 2⟩) ∧
    ((⟨0⟩ : ClientHandle) ≠ ⟨1⟩ ∧ (⟨2, 2⟩ : ProcState).bootstrapRuns = 0 + 2 ∧
      (⟨2, 2⟩ : ProcState).clientsCreated = 0 + 2) :=
  ⟨by decide, by decide, by decide,
    initializeDatabase_fresh_client_each_call goodCfg ⟨0, 0⟩ ⟨1, 1⟩ ⟨2, 2⟩ ⟨0⟩ ⟨1⟩
      (by decide) (by decide) (by decide)⟩

/-! ## C5: bill number generation -/

/-- C5. `generateUniqueBillNumber` returns `"1"` on an empty bill set;
otherwise it reads the bill with the highest internal id (`latestBill`,
shown here to be a member of maximal id), and returns its bill number plus
one when that number parses as an integer, or `"1"` when it does not. -/
theorem generateUniqueBillNumber_spec (bills : List SBill) (b : SBill) (n : Int) :
    (bills = [] → generateUniqueBillNumber bills = "1") ∧
    (latestBill bills = some b → b ∈ bills ∧ ∀ x ∈ bills, x.id ≤ b.id) ∧
    (latestBill bills = some b → jsParseInt b.bill_number = some n →
      generateUniqueBillNumber bills = toString (n + 1)) ∧
    (latestBill bills = some b → jsParseInt b.bill_number = none →
      generateUniqueBillNumber bills = "1") := by
  refine ⟨?_, ?_, ?_, ?_⟩
  · intro h; subst h; rfl
  · intro h; exact ⟨latestBill_mem h, latestBill_le h⟩
  · intro h hp; simp [generateUniqueBillNumber, h, hp]
  · intro h hp; simp [generateUniqueBillNumber, h, hp]

/-- Witness for `generateUniqueBillNumber_spec`: with a most recent bill
numbered "710" the suggestion is "711". -/
theorem generateUniqueBillNumber_spec_witness :
    latestBill [⟨5, "710", "", "", "", "", "", ""⟩] =
      some ⟨5, "710", "", "", "", "", "", ""⟩ ∧
    jsParseInt "710" = some 710 ∧
    generateUniqueBillNumber [⟨5, "710", "", "", "", "", "", ""⟩] =
      toString ((710 : Int) + 1) :=
  ⟨by decide, by decide,
    (generateUniqueBillNumber_spec [⟨5, "710", "", "", "", "", "", ""⟩]
        ⟨5, "710", "", "", "", "", "", ""⟩ 710).2.2.1 (by decide) (by decide)⟩

/-! ## C2, C3, C9: the create path -/

theorem processItems_pos {billId : Nat} : ∀ {idx : Nat} {its : List CreateItem}
    {rows : List ItemRow}, processItems billId idx its = .ok rows →
    ∀ r ∈ rows, 0 < r.unit_price ∧ 0 < r.total_price := by
  intro idx its
  induction its generalizing idx with
  | nil =>
    intro rows h r hr
    simp only [processItems] at h
    simp at h
    subst h
    simp at hr
  | cons it rest ih =>
    intro rows h r hr
    simp only [processItems] at h
    split_ifs at h with h1 h2 h3 h4 h5
    cases hrec : processItems billId (idx + 1) rest with
    | error e => rw [hrec] at h; simp at h
    | ok rows' =>
      rw [hrec] at h
      simp at h
      subst h
      rcases List.mem_cons.mp hr with rfl | htail
      · exact ⟨lt_of_not_le h3, lt_of_not_le h5⟩
      · exact ih hrec r htail

/-- The compensating delete removes exactly the header just inserted, as
long as the fresh AUTOINCREMENT id is not already taken. -/
theorem rollback_restores (st : Store) (p : CreatePayload)
    (hwf : ∀ b ∈ st.bills, b.id < st.nextId) :
    (rollbackHeader
      { st with nextId := st.nextId + 1, bills := st.bills ++ [⟨st.nextId, p⟩] }
      st.nextId).bills = st.bills := by
  simp only [rollbackHeader, List.filter_append]
  have h1 : st.bills.filter (fun b => b.id ≠ st.nextId) = st.bills := by
    apply List.filter_eq_self.mpr
    intro b hb
    have := hwf b hb
    simp
    omega
  rw [h1]
  simp

/-- C2. A create request that does not end in `created` leaves the `bills`
table exactly as it was: in particular, when the header insert succeeded but
an item failed, the compensating delete has removed the new header, so it is
not retrievable afterwards; moreover whenever the header insert went out and
the request failed, the delete call went out too. -/
theorem createFailure_no_orphan_header (st : Store) (p : CreatePayload)
    (hwf : st.bills.all (fun b => b.id < st.nextId) = true)
    (hfail : (postBills st p).1.isCreated = false) :
    (postBills st p).2.1.bills = st.bills ∧
    (NetCall.insertBill ∈ (postBills st p).2.2 →
      NetCall.deleteBill ∈ (postBills st p).2.2) := by
  have hwf' : ∀ b ∈ st.bills, b.id < st.nextId := by
    intro b hb
    exact of_decide_eq_true (List.all_eq_true.mp hwf b hb)
  by_cases hmr : missingRequired p = []
  · cases hit : p.items with
    | none => simp [postBills, hmr, hit]
    | some its =>
      cases its with
      | nil => simp [postBills, hmr, hit]
      | cons i rest =>
        simp only [postBills, hmr, ne_eq, not_true_eq_false, if_false, hit,
          ite_false] at hfail ⊢
        simp only [createBill, hit, List.isEmpty_cons] at hfail ⊢
        cases hpe : processItems st.nextId 0 (i :: rest) with
        | error e =>
          refine ⟨?_, ?_⟩
          · simpa using rollback_restores st p hwf'
          · intro _; simp
        | ok rows =>
          by_cases hbf : st.itemBatchFails = true
          · refine ⟨?_, ?_⟩
            · simpa [hbf] using rollback_restores st p hwf'
            · intro _; simp [hbf]
          · rw [hpe] at hfail
            simp [eq_false_of_ne_true hbf, PostResult.isCreated] at hfail
  · simp [postBills, hmr]

/-- Witness for `createFailure_no_orphan_header`: the zero-unit-price create
on an empty database fails after the header insert, and the store's bill
table is back to empty, the delete having followed the insert. -/
theorem createFailure_no_orphan_header_witness :
    emptyStore.bills.all (fun b => b.id < emptyStore.nextId) = true ∧
    (postBills emptyStore zeroPricePayload).1.isCreated = false ∧
    ((postBills emptyStore zeroPricePayload).2.1.bills = emptyStore.bills ∧
      (NetCall.insertBill ∈ (postBills emptyStore zeroPricePayload).2.2 →
        NetCall.deleteBill ∈ (postBills emptyStore zeroPricePayload).2.2)) :=
  ⟨by decide, by decide,
    createFailure_no_orphan_header emptyStore zeroPricePayload (by decide) (by decide)⟩

/-- C3 counterexample. The claim says an item with a non-positive unit price
is rejected locally before any network call. On `zeroPricePayload` (valid
header, one item with unit price 0) the request is indeed rejected with the
item validation error, but only after the header INSERT was sent: the
network trace already contains the insert (followed by the compensating
delete). -/
theorem create_validation_claim_counterexample :
    (postBills emptyStore zeroPricePayload).1 =
      .serverError "Item 1: Unit price must be greater than 0" ∧
    (postBills emptyStore zeroPricePayload).2.2 =
      [.initTables, .insertBill, .deleteBill] ∧
    NetCall.insertBill ∈ (postBills emptyStore zeroPricePayload).2.2 := by
  decide

/-- C3 (amended). Requests missing a required header field (customer name,
phone or invoice date) or carrying no items are rejected with a validation
error before any network call (empty trace, store untouched); item-level
violations (empty product name or category, non-positive unit price, numeric
quantity or total price) are detected only after the header INSERT network
call, which the compensating delete then follows. -/
theorem create_validation_order (st : Store) (p : CreatePayload) :
    (missingRequired p ≠ [] →
      postBills st p =
        (.badRequest "Missing required fields" (missingRequired p), st, [])) ∧
    (missingRequired p = [] → (p.items = none ∨ p.items = some []) →
      postBills st p = (.badRequest "At least one item is required" [], st, [])) ∧
    (∀ its e, missingRequired p = [] → p.items = some its → its ≠ [] →
      processItems st.nextId 0 its = .error e →
      (postBills st p).1 = .serverError e ∧
      (postBills st p).2.2 = [.initTables, .insertBill, .deleteBill]) := by
  refine ⟨?_, ?_, ?_⟩
  · intro h
    simp [postBills, h]
  · intro h1 h2
    rcases h2 with h2 | h2 <;> simp [postBills, h1, h2]
  · intro its e h1 hit hne hpe
    cases its with
    | nil => exact absurd rfl hne
    | cons i rest =>
      simp only [postBills, h1, ne_eq, not_true_eq_false, if_false, hit]
      simp only [createBill, hit, List.isEmpty_cons, hpe]
      exact ⟨rfl, rfl⟩

/-- Witness for `create_validation_order` at the zero-unit-price payload. -/
theorem create_validation_order_witness :
    missingRequired zeroPricePayload = [] ∧
    zeroPricePayload.items =
      some [{ sr_no := some 1, product_name := some "Chair",
              product_description := none, product_category := some "Chair",
              hsn_code := none, unit_price := some 0, quantity := some "12",
              total_price := some 19200, unit := none }] ∧
    ((postBills emptyStore zeroPricePayload).1 =
        .serverError "Item 1: Unit price must be greater than 0" ∧
      (postBills emptyStore zeroPricePayload).2.2 =
        [.initTables, .insertBill, .deleteBill]) :=
  ⟨by decide, by decide,
    (create_validation_order emptyStore zeroPricePayload).2.2
      [{ sr_no := some 1, product_name := some "Chair",
         product_description := none, product_category := some "Chair",
         hsn_code := none, unit_price := some 0, quantity := some "12",
         total_price := some 19200, unit := none }]
      "Item 1: Unit price must be greater than 0"
      (by decide) (by decide) (by decide) (by decide)⟩

/-- C9 (amended). Every item row a successful create persists has strictly
positive unit and total prices (rows already in the store are untouched);
the update route's item replacement does not share this guarantee, see the
counterexample. -/
theorem create_persisted_items_positive (st : Store) (p : CreatePayload)
    (billId cnt : Nat) (st' : Store) (tr : List NetCall)
    (h : postBills st p = (.created billId cnt, st', tr)) :
    ∀ r ∈ st'.items, r ∈ st.items ∨ (0 < r.unit_price ∧ 0 < r.total_price) := by
  intro r hr
  by_cases hmr : missingRequired p = []
  · cases hit : p.items with
    | none => simp [postBills, hmr, hit] at h
    | some its =>
      cases its with
      | nil => simp [postBills, hmr, hit] at h
      | cons i rest =>
        simp only [postBills, hmr, ne_eq, not_true_eq_false, if_false, hit] at h
        simp only [createBill, hit, List.isEmpty_cons] at h
        cases hpe : processItems st.nextId 0 (i :: rest) with
        | error e => rw [hpe] at h; simp at h
        | ok rows =>
          rw [hpe] at h
          by_cases hbf : st.itemBatchFails = true
          · simp [hbf] at h
          · simp only [eq_false_of_ne_true hbf, if_false, ite_false,
              Prod.mk.injEq] at h
            obtain ⟨-, hst, -⟩ := h
            rw [← hst] at hr
            rcases List.mem_append.mp hr with hold | hnew
            · exact Or.inl hold
            · exact Or.inr (processItems_pos hpe r hnew)
  · simp [postBills, hmr] at h

/-! ## C7, C8, C10 and the C9 counterexample: the update path -/

/-- Unfolding of the PUT endpoint's response when the bill exists. -/
theorem updateBillEP_found (st : UStore) (id : Nat) (p : UPayload) (now : String)
    (b : UBill) (hfind : st.bills.find? (fun x => x.id == id) = some b) :
    (updateBillEP st id p now).1 =
      .success (if anyUpdateField p = true then applyHeader b p now else b)
        ((match p.items with
          | none => st.items
          | some l =>
            st.items.filter (fun (r : UItemRow) => r.bill_id ≠ id) ++
              processUItems id l).filter (fun (r : UItemRow) => r.bill_id == id)) := by
  simp [updateBillEP, hfind]

/-- C7. The PUT endpoint is a partial update: every recognized header field
absent from the payload keeps its stored value in the returned bill, the
bank columns keep theirs when neither a `bank_details` object nor the
individual column is supplied, the id, bill number and creation timestamp
are never touched, and when no `items` array is supplied the item table is
left unchanged. Instantiated at a payload carrying only `payment_status`,
this is the claim's particular case. -/
theorem update_is_partial (st : UStore) (id : Nat) (p : UPayload) (now : String)
    (b : UBill) (hfind : st.bills.find? (fun x => x.id == id) = some b) :
    (p.items = none → (updateBillEP st id p now).2.items = st.items) ∧
    (p.invoice_date = none → (respBill (updateBillEP st id p now).1).map (fun x => x.invoice_date) = some b.invoice_date) ∧
    (p.challan_number = none → (respBill (updateBillEP st id p now).1).map (fun x => x.challan_number) = some b.challan_number) ∧
    (p.challan_date = none → (respBill (updateBillEP st id p now).1).map (fun x => x.challan_date) = some b.challan_date) ∧
    (p.po_number = none → (respBill (updateBillEP st id p now).1).map (fun x => x.po_number) = some b.po_number) ∧
    (p.po_date = none → (respBill (updateBillEP st id p now).1).map (fun x => x.po_date) = some b.po_date) ∧
    (p.dispatch_details = none → (respBill (updateBillEP st id p now).1).map (fun x => x.dispatch_details) = some b.dispatch_details) ∧
    (p.customer_name = none → (respBill (updateBillEP st id p now).1).map (fun x => x.customer_name) = some b.customer_name) ∧
    (p.customer_code = none → (respBill (updateBillEP st id p now).1).map (fun x => x.customer_code) = some b.customer_code) ∧
    (p.customer_phone = none → (respBill (updateBillEP st id p now).1).map (fun x => x.customer_phone) = some b.customer_phone) ∧
    (p.customer_email = none → (respBill (updateBillEP st id p now).1).map (fun x => x.customer_email) = some b.customer_email) ∧
    (p.customer_address = none → (respBill (updateBillEP st id p now).1).map (fun x => x.customer_address) = some b.customer_address) ∧
    (p.customer_gst_number = none → (respBill (updateBillEP st id p now).1).map (fun x => x.customer_gst_number) = some b.customer_gst_number) ∧
    (p.vendor_code = none → (respBill (updateBillEP st id p now).1).map (fun x => x.vendor_code) = some b.vendor_code) ∧
    (p.hsn_code = none → (respBill (updateBillEP st id p now).1).map (fun x => x.hsn_code) = some b.hsn_code) ∧
    (p.subtotal = none → (respBill (updateBillEP st id p now).1).map (fun x => x.subtotal) = some b.subtotal) ∧
    (p.cgst_percentage = none → (respBill (updateBillEP st id p now).1).map (fun x => x.cgst_percentage) = some b.cgst_percentage) ∧
    (p.cgst_amount = none → (respBill (updateBillEP st id p now).1).map (fun x => x.cgst_amount) = some b.cgst_amount) ∧
    (p.sgst_percentage = none → (respBill (updateBillEP st id p now).1).map (fun x => x.sgst_percentage) = some b.sgst_percentage) ∧
    (p.sgst_amount = none → (respBill (updateBillEP st id p now).1).map (fun x => x.sgst_amount) = some b.sgst_amount) ∧
    (p.igst_percentage = none → (respBill (updateBillEP st id p now).1).map (fun x => x.igst_percentage) = some b.igst_percentage) ∧
    (p.igst_amount = none → (respBill (updateBillEP st id p now).1).map (fun x => x.igst_amount) = some b.igst_amount) ∧
    (p.total_tax_amount = none → (respBill (updateBillEP st id p now).1).map (fun x => x.total_tax_amount) = some b.total_tax_amount) ∧
    (p.discount_percentage = none → (respBill (updateBillEP st id p now).1).map (fun x => x.discount_percentage) = some b.discount_percentage) ∧
    (p.discount_amount = none → (respBill (updateBillEP st id p now).1).map (fun x => x.discount_amount) = some b.discount_amount) ∧
    (p.total_amount = none → (respBill (updateBillEP st id p now).1).map (fun x => x.total_amount) = some b.total_amount) ∧
    (p.payment_method = none → (respBill (updateBillEP st id p now).1).map (fun x => x.payment_method) = some b.payment_method) ∧
    (p.payment_status = none → (respBill (updateBillEP st id p now).1).map (fun x => x.payment_status) = some b.payment_status) ∧
    (p.payment_terms = none → (respBill (updateBillEP st id p now).1).map (fun x => x.payment_terms) = some b.payment_terms) ∧
    (p.notes = none → (respBill (updateBillEP st id p now).1).map (fun x => x.notes) = some b.notes) ∧
    (p.terms_and_conditions = none → (respBill (updateBillEP st id p now).1).map (fun x => x.terms_and_conditions) = some b.terms_and_conditions) ∧
    (p.bank_details = none → p.bank_name = none → (respBill (updateBillEP st id p now).1).map (fun x => x.bank_name) = some b.bank_name) ∧
    (p.bank_details = none → p.bank_account_number = none → (respBill (updateBillEP st id p now).1).map (fun x => x.bank_account_number) = some b.bank_account_number) ∧
    (p.bank_details = none → p.bank_branch = none → (respBill (updateBillEP st id p now).1).map (fun x => x.bank_branch) = some b.bank_branch) ∧
    (p.bank_details = none → p.bank_ifsc_code = none → (respBill (updateBillEP st id p now).1).map (fun x => x.bank_ifsc_code) = some b.bank_ifsc_code) ∧
    (p.bank_details = none → p.bank_account_type = none → (respBill (updateBillEP st id p now).1).map (fun x => x.bank_account_type) = some b.bank_account_type) ∧
    ((respBill (updateBillEP st id p now).1).map (fun x => x.id) = some b.id) ∧
    ((respBill (updateBillEP st id p now).1).map (fun x => x.bill_number) = some b.bill_number) ∧
    ((respBill (updateBillEP st id p now).1).map (fun x => x.created_at) = some b.created_at) :=
  ⟨fun h => by simp [updateBillEP, hfind, h],
    fun h => by rw [updateBillEP_found st id p now b hfind]; by_cases hA : anyUpdateField p = true <;> cases hbd : p.bank_details <;> simp [respBill, hA, applyHeader, applyBank, h, hbd],
    fun h => by rw [updateBillEP_found st id p now b hfind]; by_cases hA : anyUpdateField p = true <;> cases hbd : p.bank_details <;> simp [respBill, hA, applyHeader, applyBank, h, hbd],
    fun h => by rw [updateBillEP_found st id p now b hfind]; by_cases hA : anyUpdateField p = true <;> cases hbd : p.bank_details <;> simp [respBill, hA, applyHeader, applyBank, h, hbd],
    fun h => by rw [updateBillEP_found st id p now b hfind]; by_cases hA : anyUpdateField p = true <;> cases hbd : p.bank_details <;> simp [respBill, hA, applyHeader, applyBank, h, hbd],
    fun h => by rw [updateBillEP_found st id p now b hfind]; by_cases hA : anyUpdateField p = true <;> cases hbd : p.bank_details <;> simp [respBill, hA, applyHeader, applyBank, h, hbd],
    fun h => by rw [updateBillEP_found st id p now b hfind]; by_cases hA : anyUpdateField p = true <;> cases hbd : p.bank_details <;> simp [respBill, hA, applyHeader, applyBank, h, hbd],
    fun h => by rw [updateBillEP_found st id p now b hfind]; by_cases hA : anyUpdateField p = true <;> cases hbd : p.bank_details <;> simp [respBill, hA, applyHeader, applyBank, h, hbd],
    fun h => by rw [updateBillEP_found st id p now b hfind]; by_cases hA : anyUpdateField p = true <;> cases hbd : p.bank_details <;> simp [respBill, hA, applyHeader, applyBank, h, hbd],
    fun h => by rw [updateBillEP_found st id p now b hfind]; by_cases hA : anyUpdateField p = true <;> cases hbd : p.bank_details <;> simp [respBill, hA, applyHeader, applyBank, h, hbd],
    fun h => by rw [updateBillEP_found st id p now b hfind]; by_cases hA : anyUpdateField p = true <;> cases hbd : p.bank_details <;> simp [respBill, hA, applyHeader, applyBank, h, hbd],
    fun h => by rw [updateBillEP_found st id p now b hfind]; by_cases hA : anyUpdateField p = true <;> cases hbd : p.bank_details <;> simp [respBill, hA, applyHeader, applyBank, h, hbd],
    fun h => by rw [updateBillEP_found st id p now b hfind]; by_cases hA : anyUpdateField p = true <;> cases hbd : p.bank_details <;> simp [respBill, hA, applyHeader, applyBank, h, hbd],
    fun h => by rw [updateBillEP_found st id p now b hfind]; by_cases hA : anyUpdateField p = true <;> cases hbd : p.bank_details <;> simp [respBill, hA, applyHeader, applyBank, h, hbd],
    fun h => by rw [updateBillEP_found st id p now b hfind]; by_cases hA : anyUpdateField p = true <;> cases hbd : p.bank_details <;> simp [respBill, hA, applyHeader, applyBank, h, hbd],
    fun h => by rw [updateBillEP_found st id p now b hfind]; by_cases hA : anyUpdateField p = true <;> cases hbd : p.bank_details <;> simp [respBill, hA, applyHeader, applyBank, h, hbd],
    fun h => by rw [updateBillEP_found st id p now b hfind]; by_cases hA : anyUpdateField p = true <;> cases hbd : p.bank_details <;> simp [respBill, hA, applyHeader, applyBank, h, hbd],
    fun h => by rw [updateBillEP_found st id p now b hfind]; by_cases hA : anyUpdateField p = true <;> cases hbd : p.bank_details <;> simp [respBill, hA, applyHeader, applyBank, h, hbd],
    fun h => by rw [updateBillEP_found st id p now b hfind]; by_cases hA : anyUpdateField p = true <;> cases hbd : p.bank_details <;> simp [respBill, hA, applyHeader, applyBank, h, hbd],
    fun h => by rw [updateBillEP_found st id p now b hfind]; by_cases hA : anyUpdateField p = true <;> cases hbd : p.bank_details <;> simp [respBill, hA, applyHeader, applyBank, h, hbd],
    fun h => by rw [updateBillEP_found st id p now b hfind]; by_cases hA : anyUpdateField p = true <;> cases hbd : p.bank_details <;> simp [respBill, hA, applyHeader, applyBank, h, hbd],
    fun h => by rw [updateBillEP_found st id p now b hfind]; by_cases hA : anyUpdateField p = true <;> cases hbd : p.bank_details <;> simp [respBill, hA, applyHeader, applyBank, h, hbd],
    fun h => by rw [updateBillEP_found st id p now b hfind]; by_cases hA : anyUpdateField p = true <;> cases hbd : p.bank_details <;> simp [respBill, hA, applyHeader, applyBank, h, hbd],
    fun h => by rw [updateBillEP_found st id p now b hfind]; by_cases hA : anyUpdateField p = true <;> cases hbd : p.bank_details <;> simp [respBill, hA, applyHeader, applyBank, h, hbd],
    fun h => by rw [updateBillEP_found st id p now b hfind]; by_cases hA : anyUpdateField p = true <;> cases hbd : p.bank_details <;> simp [respBill, hA, applyHeader, applyBank, h, hbd],
    fun h => by rw [updateBillEP_found st id p now b hfind]; by_cases hA : anyUpdateField p = true <;> cases hbd : p.bank_details <;> simp [respBill, hA, applyHeader, applyBank, h, hbd],
    fun h => by rw [updateBillEP_found st id p now b hfind]; by_cases hA : anyUpdateField p = true <;> cases hbd : p.bank_details <;> simp [respBill, hA, applyHeader, applyBank, h, hbd],
    fun h => by rw [updateBillEP_found st id p now b hfind]; by_cases hA : anyUpdateField p = true <;> cases hbd : p.bank_details <;> simp [respBill, hA, applyHeader, applyBank, h, hbd],
    fun h => by rw [updateBillEP_found st id p now b hfind]; by_cases hA : anyUpdateField p = true <;> cases hbd : p.bank_details <;> simp [respBill, hA, applyHeader, applyBank, h, hbd],
    fun h => by rw [updateBillEP_found st id p now b hfind]; by_cases hA : anyUpdateField p = true <;> cases hbd : p.bank_details <;> simp [respBill, hA, applyHeader, applyBank, h, hbd],
    fun h => by rw [updateBillEP_found st id p now b hfind]; by_cases hA : anyUpdateField p = true <;> cases hbd : p.bank_details <;> simp [respBill, hA, applyHeader, applyBank, h, hbd],
    fun h1 h2 => by rw [updateBillEP_found st id p now b hfind]; by_cases hA : anyUpdateField p = true <;> simp [respBill, hA, applyHeader, applyBank, h1, h2],
    fun h1 h2 => by rw [updateBillEP_found st id p now b hfind]; by_cases hA : anyUpdateField p = true <;> simp [respBill, hA, applyHeader, applyBank, h1, h2],
    fun h1 h2 => by rw [updateBillEP_found st id p now b hfind]; by_cases hA : anyUpdateField p = true <;> simp [respBill, hA, applyHeader, applyBank, h1, h2],
    fun h1 h2 => by rw [updateBillEP_found st id p now b hfind]; by_cases hA : anyUpdateField p = true <;> simp [respBill, hA, applyHeader, applyBank, h1, h2],
    fun h1 h2 => by rw [updateBillEP_found st id p now b hfind]; by_cases hA : anyUpdateField p = true <;> simp [respBill, hA, applyHeader, applyBank, h1, h2],
    by rw [updateBillEP_found st id p now b hfind]; by_cases hA : anyUpdateField p = true <;> cases hbd : p.bank_details <;> simp [respBill, hA, applyHeader, applyBank, hbd],
    by rw [updateBillEP_found st id p now b hfind]; by_cases hA : anyUpdateField p = true <;> cases hbd : p.bank_details <;> simp [respBill, hA, applyHeader, applyBank, hbd],
    by rw [updateBillEP_found st id p now b hfind]; by_cases hA : anyUpdateField p = true <;> cases hbd : p.bank_details <;> simp [respBill, hA, applyHeader, applyBank, hbd]⟩

/-- Witness for `update_is_partial` at the payment-status-only payload. -/
theorem update_is_partial_witness :
    uStore1.bills.find? (fun x => x.id == 1) = some bill710 ∧
    ((payStatusPayload.items = none → (updateBillEP uStore1 1 payStatusPayload "2025-08-01").2.items = uStore1.items) ∧
    (payStatusPayload.invoice_date = none → (respBill (updateBillEP uStore1 1 payStatusPayload "2025-08-01").1).map (fun x => x.invoice_date) = some bill710.invoice_date) ∧
    (payStatusPayload.challan_number = none → (respBill (updateBillEP uStore1 1 payStatusPayload "2025-08-01").1).map (fun x => x.challan_number) = some bill710.challan_number) ∧
    (payStatusPayload.challan_date = none → (respBill (updateBillEP uStore1 1 payStatusPayload "2025-08-01").1).map (fun x => x.challan_date) = some bill710.challan_date) ∧
    (payStatusPayload.po_number = none → (respBill (updateBillEP uStore1 1 payStatusPayload "2025-08-01").1).map (fun x => x.po_number) = some bill710.po_number) ∧
    (payStatusPayload.po_date = none → (respBill (updateBillEP uStore1 1 payStatusPayload "2025-08-01").1).map (fun x => x.po_date) = some bill710.po_date) ∧
    (payStatusPayload.dispatch_details = none → (respBill (updateBillEP uStore1 1 payStatusPayload "2025-08-01").1).map (fun x => x.dispatch_details) = some bill710.dispatch_details) ∧
    (payStatusPayload.customer_name = none → (respBill (updateBillEP uStore1 1 payStatusPayload "2025-08-01").1).map (fun x => x.customer_name) = some bill710.customer_name) ∧
    (payStatusPayload.customer_code = none → (respBill (updateBillEP uStore1 1 payStatusPayload "2025-08-01").1).map (fun x => x.customer_code) = some bill710.customer_code) ∧
    (payStatusPayload.customer_phone = none → (respBill (updateBillEP uStore1 1 payStatusPayload "2025-08-01").1).map (fun x => x.customer_phone) = some bill710.customer_phone) ∧
    (payStatusPayload.customer_email = none → (respBill (updateBillEP uStore1 1 payStatusPayload "2025-08-01").1).map (fun x => x.customer_email) = some bill710.customer_email) ∧
    (payStatusPayload.customer_address = none → (respBill (updateBillEP uStore1 1 payStatusPayload "2025-08-01").1).map (fun x => x.customer_address) = some bill710.customer_address) ∧
    (payStatusPayload.customer_gst_number = none → (respBill (updateBillEP uStore1 1 payStatusPayload "2025-08-01").1).map (fun x => x.customer_gst_number) = some bill710.customer_gst_number) ∧
    (payStatusPayload.vendor_code = none → (respBill (updateBillEP uStore1 1 payStatusPayload "2025-08-01").1).map (fun x => x.vendor_code) = some bill710.vendor_code) ∧
    (payStatusPayload.hsn_code = none → (respBill (updateBillEP uStore1 1 payStatusPayload "2025-08-01").1).map (fun x => x.hsn_code) = some bill710.hsn_code) ∧
    (payStatusPayload.subtotal = none → (respBill (updateBillEP uStore1 1 payStatusPayload "2025-08-01").1).map (fun x => x.subtotal) = some bill710.subtotal) ∧
    (payStatusPayload.cgst_percentage = none → (respBill (updateBillEP uStore1 1 payStatusPayload "2025-08-01").1).map (fun x => x.cgst_percentage) = some bill710.cgst_percentage) ∧
    (payStatusPayload.cgst_amount = none → (respBill (updateBillEP uStore1 1 payStatusPayload "2025-08-01").1).map (fun x => x.cgst_amount) = some bill710.cgst_amount) ∧
    (payStatusPayload.sgst_percentage = none → (respBill (updateBillEP uStore1 1 payStatusPayload "2025-08-01").1).map (fun x => x.sgst_percentage) = some bill710.sgst_percentage) ∧
    (payStatusPayload.sgst_amount = none → (respBill (updateBillEP uStore1 1 payStatusPayload "2025-08-01").1).map (fun x => x.sgst_amount) = some bill710.sgst_amount) ∧
    (payStatusPayload.igst_percentage = none → (respBill (updateBillEP uStore1 1 payStatusPayload "2025-08-01").1).map (fun x => x.igst_percentage) = some bill710.igst_percentage) ∧
    (payStatusPayload.igst_amount = none → (respBill (updateBillEP uStore1 1 payStatusPayload "2025-08-01").1).map (fun x => x.igst_amount) = some bill710.igst_amount) ∧
    (payStatusPayload.total_tax_amount = none → (respBill (updateBillEP uStore1 1 payStatusPayload "2025-08-01").1).map (fun x => x.total_tax_amount) = some bill710.total_tax_amount) ∧
    (payStatusPayload.discount_percentage = none → (respBill (updateBillEP uStore1 1 payStatusPayload "2025-08-01").1).map (fun x => x.discount_percentage) = some bill710.discount_percentage) ∧
    (payStatusPayload.discount_amount = none → (respBill (updateBillEP uStore1 1 payStatusPayload "2025-08-01").1).map (fun x => x.discount_amount) = some bill710.discount_amount) ∧
    (payStatusPayload.total_amount = none → (respBill (updateBillEP uStore1 1 payStatusPayload "2025-08-01").1).map (fun x => x.total_amount) = some bill710.total_amount) ∧
    (payStatusPayload.payment_method = none → (respBill (updateBillEP uStore1 1 payStatusPayload "2025-08-01").1).map (fun x => x.payment_method) = some bill710.payment_method) ∧
    (payStatusPayload.payment_status = none → (respBill (updateBillEP uStore1 1 payStatusPayload "2025-08-01").1).map (fun x => x.payment_status) = some bill710.payment_status) ∧
    (payStatusPayload.payment_terms = none → (respBill (updateBillEP uStore1 1 payStatusPayload "2025-08-01").1).map (fun x => x.payment_terms) = some bill710.payment_terms) ∧
    (payStatusPayload.notes = none → (respBill (updateBillEP uStore1 1 payStatusPayload "2025-08-01").1).map (fun x => x.notes) = some bill710.notes) ∧
    (payStatusPayload.terms_and_conditions = none → (respBill (updateBillEP uStore1 1 payStatusPayload "2025-08-01").1).map (fun x => x.terms_and_conditions) = some bill710.terms_and_conditions) ∧
    (payStatusPayload.bank_details = none → payStatusPayload.bank_name = none → (respBill (updateBillEP uStore1 1 payStatusPayload "2025-08-01").1).map (fun x => x.bank_name) = some bill710.bank_name) ∧
    (payStatusPayload.bank_details = none → payStatusPayload.bank_account_number = none → (respBill (updateBillEP uStore1 1 payStatusPayload "2025-08-01").1).map (fun x => x.bank_account_number) = some bill710.bank_account_number) ∧
    (payStatusPayload.bank_details = none → payStatusPayload.bank_branch = none → (respBill (updateBillEP uStore1 1 payStatusPayload "2025-08-01").1).map (fun x => x.bank_branch) = some bill710.bank_branch) ∧
    (payStatusPayload.bank_details = none → payStatusPayload.bank_ifsc_code = none → (respBill (updateBillEP uStore1 1 payStatusPayload "2025-08-01").1).map (fun x => x.bank_ifsc_code) = some bill710.bank_ifsc_code) ∧
    (payStatusPayload.bank_details = none → payStatusPayload.bank_account_type = none → (respBill (updateBillEP uStore1 1 payStatusPayload "2025-08-01").1).map (fun x => x.bank_account_type) = some bill710.bank_account_type) ∧
    ((respBill (updateBillEP uStore1 1 payStatusPayload "2025-08-01").1).map (fun x => x.id) = some bill710.id) ∧
    ((respBill (updateBillEP uStore1 1 payStatusPayload "2025-08-01").1).map (fun x => x.bill_number) = some bill710.bill_number) ∧
    ((respBill (updateBillEP uStore1 1 payStatusPayload "2025-08-01").1).map (fun x => x.created_at) = some bill710.created_at)) :=
  ⟨by decide, update_is_partial uStore1 1 payStatusPayload "2025-08-01" bill710 (by decide)⟩

/-- C8 counterexample. The claim says every successful update refreshes the
stored `updated_at`. An update that supplies only an (empty) `items` array
succeeds — it returns the bill and replaces its item set — but because the
payload carries no recognized header field, the `updateFields.length > 1`
guard skips the UPDATE statement entirely and the stored `updated_at` keeps
its old value instead of the request time. -/
theorem update_timestamp_claim_counterexample :
    (updateBillEP uStore1 1 emptyItemsUPayload "2025-08-01T00:00:00Z").1 =
      .success bill710 [] ∧
    (updateBillEP uStore1 1 emptyItemsUPayload
      "2025-08-01T00:00:00Z").2.bills.map (fun x => x.updated_at) =
      ["2025-07-06T00:00:00Z"] ∧
    bill710.updated_at ≠ "2025-08-01T00:00:00Z" := by
  decide

/-- C8 (amended). A successful update of an existing bill stores the request
time as `updated_at` exactly when the payload contains at least one
recognized header or bank field; a payload with none (for example one
carrying only an `items` array) succeeds without touching `updated_at`. -/
theorem update_refreshes_updated_at_iff (st : UStore) (id : Nat) (p : UPayload)
    (now : String) (b : UBill)
    (hfind : st.bills.find? (fun x => x.id == id) = some b) :
    (respBill (updateBillEP st id p now).1).map (fun x => x.updated_at) =
      some (if anyUpdateField p = true then now else b.updated_at) := by
  rw [updateBillEP_found st id p now b hfind]
  by_cases hA : anyUpdateField p = true <;> cases hbd : p.bank_details <;>
    simp [respBill, hA, applyHeader, applyBank, hbd]

/-- Witness for `update_refreshes_updated_at_iff`: the payment-status-only
update does refresh the timestamp. -/
theorem update_refreshes_updated_at_iff_witness :
    uStore1.bills.find? (fun x => x.id == 1) = some bill710 ∧
    (respBill (updateBillEP uStore1 1 payStatusPayload "2025-08-01").1).map
        (fun x => x.updated_at) =
      some (if anyUpdateField payStatusPayload = true then "2025-08-01"
            else bill710.updated_at) :=
  ⟨by decide,
    update_refreshes_updated_at_iff uStore1 1 payStatusPayload "2025-08-01" bill710
      (by decide)⟩

theorem filter_ne_then_eq {l : List UItemRow} {id : Nat} :
    (l.filter (fun r => r.bill_id ≠ id)).filter (fun r => r.bill_id == id) = [] := by
  induction l with
  | nil => rfl
  | cons a as ih => by_cases h : a.bill_id = id <;> simp [h, ih]

/-- C10. An update whose payload carries an empty `items` array succeeds and
returns the bill with an empty item list, and afterwards the store holds no
item row of that bill while every other bill keeps its rows. -/
theorem update_empty_items_clears (st : UStore) (id : Nat) (p : UPayload)
    (now : String) (b : UBill)
    (hfind : st.bills.find? (fun x => x.id == id) = some b)
    (hitems : p.items = some []) :
    respItems (updateBillEP st id p now).1 = some [] ∧
    (updateBillEP st id p now).2.items =
      st.items.filter (fun r => r.bill_id ≠ id) := by
  constructor
  · rw [updateBillEP_found st id p now b hfind]
    simp [respItems, hitems, processUItems, filter_ne_then_eq]
  · simp [updateBillEP, hfind, hitems, processUItems]

/-- Witness for `update_empty_items_clears` at the one-bill store. -/
theorem update_empty_items_clears_witness :
    uStore1.bills.find? (fun x => x.id == 1) = some bill710 ∧
    emptyItemsUPayload.items = some [] ∧
    (respItems (updateBillEP uStore1 1 emptyItemsUPayload "T1").1 = some [] ∧
      (updateBillEP uStore1 1 emptyItemsUPayload "T1").2.items =
        uStore1.items.filter (fun r => r.bill_id ≠ 1)) :=
  ⟨by decide, by decide,
    update_empty_items_clears uStore1 1 emptyItemsUPayload "T1" bill710
      (by decide) (by decide)⟩

/-- C9 counterexample. The claim says every persisted item row has strictly
positive unit and total prices. The update route's item replacement accepts
an item that has a product name but no prices (`hasData` holds), and
persists it with `unit_price = 0` and `total_price = 0`: the positivity
constraint is enforced on the create path only. -/
theorem update_item_positivity_counterexample :
    (updateBillEP uStore1 1 zeroPriceUPayload "T1").2.items =
      [{ bill_id := 1, sr_no := 1, product_name := "Chair",
         product_description := "", product_category := "General",
         hsn_code := "", unit_price := 0, quantity := "0",
         total_price := 0, unit := "Nos" }] ∧
    (respItems (updateBillEP uStore1 1 zeroPriceUPayload "T1").1).map
      (List.map (fun r => (r.unit_price, r.total_price))) = some [(0, 0)] := by
  constructor
  · simp [updateBillEP, uStore1, zeroPriceUPayload, emptyUPayload, bill710, row710,
      processUItems, buildURow, hasData, truthyS, truthyQ, uQuantityOf, anyUpdateField,
      List.enum, List.enumFrom, List.filter, List.find?, mul_zero]
  · simp [updateBillEP, uStore1, zeroPriceUPayload, emptyUPayload, bill710, row710,
      processUItems, buildURow, hasData, truthyS, truthyQ, uQuantityOf, anyUpdateField,
      List.enum, List.enumFrom, List.filter, List.find?, mul_zero, respItems]

/-- Witness for `create_persisted_items_positive` at the valid one-item
create. -/
theorem create_persisted_items_positive_witness :
    postBills emptyStore validPayload =
      (.created 1 1, validStoreAfter, [.initTables, .insertBill, .batchInsertItems]) ∧
    (validRow ∈ emptyStore.items ∨
      (0 < validRow.unit_price ∧ 0 < validRow.total_price)) :=
  ⟨by decide,
    create_persisted_items_positive emptyStore validPayload 1 1 validStoreAfter
      [.initTables, .insertBill, .batchInsertItems] (by decide) validRow (by decide)⟩

/-! ## C6: customer search -/

theorem listLex_total : ∀ (a b : List Char), listLex a b = true ∨ listLex b a = true := by
  intro a
  induction a with
  | nil => intro b; left; rfl
  | cons x as ih =>
    intro b
    cases b with
    | nil => right; rfl
    | cons y bs =>
      simp only [listLex]
      by_cases h1 : x.toNat < y.toNat
      · left; simp [h1]
      · by_cases h2 : y.toNat < x.toNat
        · right; simp [h2]
        · rcases ih bs with h | h
          · left; simp [h1, h2, h]
          · right; simp [h1, h2, h]

theorem listLex_trans : ∀ {a b c : List Char}, listLex a b = true →
    listLex b c = true → listLex a c = true := by
  intro a
  induction a with
  | nil => intro b c _ _; rfl
  | cons x as ih =>
    intro b c h1 h2
    cases b with
    | nil => simp [listLex] at h1
    | cons y bs =>
      cases c with
      | nil => simp [listLex] at h2
      | cons z cs =>
        simp only [listLex] at h1 h2 ⊢
        by_cases hxy : x.toNat < y.toNat
        · by_cases hyz : y.toNat < z.toNat
          · have hxz : x.toNat < z.toNat := by omega
            simp [hxz]
          · by_cases hzy : z.toNat < y.toNat
            · simp [hyz, hzy] at h2
            · have hxz : x.toNat < z.toNat := by omega
              simp [hxz]
        · by_cases hyx : y.toNat < x.toNat
          · simp [hxy, hyx] at h1
          · simp only [hxy, if_false, hyx, ite_false] at h1
            by_cases hyz : y.toNat < z.toNat
            · have hxz : x.toNat < z.toNat := by omega
              simp [hxz]
            · by_cases hzy : z.toNat < y.toNat
              · simp [hyz, hzy] at h2
              · simp only [hyz, if_false, hzy, ite_false] at h2
                have hxz : ¬x.toNat < z.toNat := by omega
                have hzx : ¬z.toNat < x.toNat := by omega
                simp only [hxz, if_false, hzx, ite_false]
                exact ih h1 h2

theorem strLe_total (a b : String) : strLe a b = true ∨ strLe b a = true :=
  listLex_total a.data b.data

theorem strLe_trans {a b c : String} (h1 : strLe a b = true)
    (h2 : strLe b c = true) : strLe a c = true :=
  listLex_trans h1 h2

theorem insertStr_perm (x : String) : ∀ l : List String, (insertStr x l).Perm (x :: l) := by
  intro l
  induction l with
  | nil => exact List.Perm.refl _
  | cons y ys ih =>
    simp only [insertStr]
    by_cases h : strLe x y = true
    · rw [if_pos h]
    · rw [if_neg h]
      exact (ih.cons y).trans (List.Perm.swap x y ys)

theorem sortNames_perm : ∀ l : List String, (sortNames l).Perm l := by
  intro l
  induction l with
  | nil => exact List.Perm.refl _
  | cons x xs ih =>
    simp only [sortNames]
    exact (insertStr_perm x (sortNames xs)).trans (ih.cons x)

theorem insertStr_sorted {x : String} : ∀ {l : List String},
    l.Pairwise (fun a b => strLe a b = true) →
    (insertStr x l).Pairwise (fun a b => strLe a b = true) := by
  intro l
  induction l with
  | nil => intro _; simp [insertStr]
  | cons y ys ih =>
    intro h
    rcases List.pairwise_cons.mp h with ⟨hy, hys⟩
    simp only [insertStr]
    by_cases hxy : strLe x y = true
    · rw [if_pos hxy]
      refine List.pairwise_cons.mpr ⟨?_, h⟩
      intro b hb
      rcases List.mem_cons.mp hb with rfl | hbys
      · exact hxy
      · exact strLe_trans hxy (hy b hbys)
    · rw [if_neg hxy]
      refine List.pairwise_cons.mpr ⟨?_, ih hys⟩
      intro b hb
      have hmem : b ∈ x :: ys := (insertStr_perm x ys).subset hb
      rcases List.mem_cons.mp hmem with rfl | hbys
      · rcases strLe_total b y with hT | hT
        · exact absurd hT hxy
        · exact hT
      · exact hy b hbys

theorem sortNames_sorted : ∀ l : List String,
    (sortNames l).Pairwise (fun a b => strLe a b = true) := by
  intro l
  induction l with
  | nil => simp [sortNames]
  | cons x xs ih =>
    simp only [sortNames]
    exact insertStr_sorted ih

theorem mem_topNames {bills : List SBill} {q n : String}
    (h : n ∈ topNames bills q) :
    ∃ b ∈ matchingBills bills q, b.customer_name = n := by
  have h1 : n ∈ sortNames (((matchingBills bills q).map
      (fun b => b.customer_name)).dedup) := List.take_subset _ _ h
  have h2 : n ∈ ((matchingBills bills q).map (fun b => b.customer_name)).dedup :=
    ((sortNames_perm _).mem_iff).mp h1
  have h3 : n ∈ (matchingBills bills q).map (fun b => b.customer_name) :=
    List.mem_dedup.mp h2
  obtain ⟨b, hb, rfl⟩ := List.mem_map.mp h3
  exact ⟨b, hb, rfl⟩

theorem mostRecentFor_of_mem {bills : List SBill} {q n : String}
    (h : ∃ b ∈ matchingBills bills q, b.customer_name = n) :
    ∃ c, mostRecentFor bills q n = some c := by
  obtain ⟨b, hb, rfl⟩ := h
  cases hx : latestBill ((matchingBills bills q).filter
      (fun x => x.customer_name == b.customer_name)) with
  | none =>
    have hnil := latestBill_eq_none hx
    have : b ∈ (matchingBills bills q).filter
        (fun x => x.customer_name == b.customer_name) := by
      simp [List.mem_filter, hb]
    rw [hnil] at this
    simp at this
  | some c => exact ⟨c, by simp [mostRecentFor, hx]⟩

theorem mostRecentFor_spec {bills : List SBill} {q n : String} {b : SBill}
    (h : mostRecentFor bills q n = some b) :
    b ∈ bills ∧ b.customer_name = n ∧ likeContains q b.customer_name = true ∧
    ∀ b2 ∈ bills, b2.customer_name = b.customer_name → b2.id ≤ b.id := by
  have hmem := latestBill_mem h
  rw [List.mem_filter] at hmem
  obtain ⟨hmat, hname⟩ := hmem
  have hnameEq : b.customer_name = n := by simpa using hname
  have hmat' := hmat
  simp only [matchingBills, List.mem_filter] at hmat'
  obtain ⟨hbills, hlike⟩ := hmat'
  refine ⟨hbills, hnameEq, hlike, ?_⟩
  intro b2 hb2 hname2
  have hb2mat : b2 ∈ matchingBills bills q := by
    simp only [matchingBills, List.mem_filter]
    exact ⟨hb2, by rw [hname2]; exact hlike⟩
  have hb2filt : b2 ∈ (matchingBills bills q).filter
      (fun x => x.customer_name == n) := by
    rw [List.mem_filter]
    exact ⟨hb2mat, by simp [hname2, hnameEq]⟩
  exact latestBill_le h b2 hb2filt

theorem searchResults_names (bills : List SBill) (q : String) :
    (searchResults bills q).map (fun r => r.customer_name) = topNames bills q := by
  have haux : ∀ l : List String, (∀ n ∈ l, n ∈ topNames bills q) →
      (l.filterMap (fun n => (mostRecentFor bills q n).map projCustomer)).map
        (fun r => r.customer_name) = l := by
    intro l
    induction l with
    | nil => intro _; rfl
    | cons n ns ih =>
      intro hmem
      have hn := hmem n (List.mem_cons_self n ns)
      obtain ⟨c, hc⟩ := mostRecentFor_of_mem (mem_topNames hn)
      have hcs := mostRecentFor_spec hc
      have hfm : (mostRecentFor bills q n).map projCustomer =
          some (projCustomer c) := by rw [hc]; rfl
      simp only [List.filterMap_cons, hfm]
      simp only [List.map_cons]
      rw [ih (fun m hm => hmem m (List.mem_cons_of_mem n hm))]
      simp [projCustomer, hcs.2.1]
  exact haux _ (fun n hn => hn)

theorem tryAllSuffixes_congr {f g : List Char → Bool} (h : ∀ t, f t = g t) :
    ∀ s, tryAllSuffixes f s = tryAllSuffixes g s := by
  intro s
  induction s with
  | nil => simp [tryAllSuffixes, h]
  | cons c s' ih => simp [tryAllSuffixes, h, ih]

theorem tryAllSuffixes_true {f : List Char → Bool} (hf : f [] = true) :
    ∀ s, tryAllSuffixes f s = true := by
  intro s
  induction s with
  | nil => simp [tryAllSuffixes, hf]
  | cons c s' ih => simp [tryAllSuffixes, ih]

theorem isPrefixB_nil (p : List Char) : isPrefixB p [] = p.isEmpty := by
  cases p <;> rfl

/-- A wildcard-free pattern followed by a final `%` matches exactly the
texts it is a prefix of. -/
theorem likeMatch_no_wildcards {p : List Char}
    (hp : ∀ c ∈ p, c ≠ '%' ∧ c ≠ '_') :
    ∀ t, likeMatch (p ++ ['%']) t = isPrefixB p t := by
  induction p with
  | nil =>
    intro t
    have h1 : likeMatch ([] ++ ['%']) t =
        tryAllSuffixes (fun u => likeMatch [] u) t := by
      simp [likeMatch]
    rw [h1, tryAllSuffixes_true (by simp [likeMatch])]
    rfl
  | cons a p' ih =>
    intro t
    have ha := hp a (List.mem_cons_self a p')
    have ih' := ih (fun c hc => hp c (List.mem_cons_of_mem a hc))
    cases t with
    | nil => simp [likeMatch, ha.1, ha.2, isPrefixB]
    | cons c t' => simp [likeMatch, ha.1, ha.2, isPrefixB, ih' t']

theorem tryAllSuffixes_isPrefixB (p : List Char) :
    ∀ s, tryAllSuffixes (fun t => isPrefixB p t) s = containsSub p s := by
  intro s
  induction s with
  | nil => simp [tryAllSuffixes, containsSub, isPrefixB_nil]
  | cons c s' ih => simp [tryAllSuffixes, containsSub, ih]

/-- For a wildcard-free query, the bound pattern `'%' + q + '%'` matches a
text exactly when the query is contained in it: SQL LIKE with the padded
pattern degenerates to substring containment. -/
theorem likeMatch_wrap_eq_containsSub {p : List Char}
    (hp : ∀ c ∈ p, c ≠ '%' ∧ c ≠ '_') :
    ∀ s, likeMatch ('%' :: (p ++ ['%'])) s = containsSub p s := by
  intro s
  have h1 : likeMatch ('%' :: (p ++ ['%'])) s =
      tryAllSuffixes (fun t => likeMatch (p ++ ['%']) t) s := by
    simp [likeMatch]
  rw [h1, tryAllSuffixes_congr (likeMatch_no_wildcards hp),
    tryAllSuffixes_isPrefixB]

/-- C6 counterexample. The claim says every query of 3 or more characters
returns (at most 10) results. The three-character query `"a  "` (one letter,
two trailing spaces) is instead rejected with the validation error, because
the endpoint tests `query.trim().length < 3` on the trimmed text. -/
theorem search_length_claim_counterexample :
    3 ≤ ("a  " : String).length ∧
    searchCustomers [sbRajesh] "a  " =
      .error "A search query of at least 3 characters is required." := by
  decide

/-- C6 (amended). The search rejects exactly the queries whose trimmed text
is shorter than 3 characters (hence every query shorter than 3 characters);
for the rest it returns the result set, which holds at most 10 rows, is
sorted by customer name ascending with no duplicate names, and whose every
row is the projection of some stored bill whose name matches the bound
`LIKE` pattern `'%' + query + '%'` (case-insensitive; for a query without
the SQL wildcards `%` and `_` that is exactly substring containment, as the
final conjunct states) and has the greatest id among that customer's
bills. -/
theorem searchCustomers_spec (bills : List SBill) (q : String) :
    ((jsTrim q).length < 3 →
      searchCustomers bills q =
        .error "A search query of at least 3 characters is required.") ∧
    (3 ≤ (jsTrim q).length →
      searchCustomers bills q = .ok (searchResults bills q)) ∧
    (searchResults bills q).length ≤ 10 ∧
    ((searchResults bills q).map (fun r => r.customer_name)).Pairwise
      (fun a b => strLe a b = true) ∧
    ((searchResults bills q).map (fun r => r.customer_name)).Nodup ∧
    (∀ r ∈ searchResults bills q, ∃ b ∈ bills,
      projCustomer b = r ∧ likeContains q b.customer_name = true ∧
      ∀ b2 ∈ bills, b2.customer_name = b.customer_name → b2.id ≤ b.id) ∧
    ((∀ c ∈ lowerData q, c ≠ '%' ∧ c ≠ '_') → ∀ name,
      likeContains q name = containsSub (lowerData q) (lowerData name)) := by
  refine ⟨?_, ?_, ?_, ?_, ?_, ?_, ?_⟩
  · intro h
    simp [searchCustomers, h]
  · intro h
    have : ¬(jsTrim q).length < 3 := by omega
    simp [searchCustomers, this]
  · calc (searchResults bills q).length
        ≤ (topNames bills q).length := List.length_filterMap_le _ _
      _ ≤ 10 := by
        simp only [topNames]
        exact List.length_take_le _ _
  · rw [searchResults_names]
    exact List.Pairwise.sublist (List.take_sublist _ _) (sortNames_sorted _)
  · rw [searchResults_names]
    exact ((sortNames_perm _).nodup_iff.mpr (List.nodup_dedup _)).sublist
      (List.take_sublist _ _)
  · intro r hr
    simp only [searchResults, List.mem_filterMap] at hr
    obtain ⟨n, hn, heq⟩ := hr
    rw [Option.map_eq_some'] at heq
    obtain ⟨c, hc, hproj⟩ := heq
    have hcs := mostRecentFor_spec hc
    exact ⟨c, hcs.1, hproj, hcs.2.2.1, fun b2 hb2 hnm => hcs.2.2.2 b2 hb2 hnm⟩
  · intro hq name
    exact likeMatch_wrap_eq_containsSub hq (lowerData name)

/-- Witness for `searchCustomers_spec` at a two-customer store and the query
`"RAJ"`. -/
theorem searchCustomers_spec_witness :
    3 ≤ (jsTrim "RAJ").length ∧
    searchCustomers [sbRajesh, sbRajeev] "RAJ" =
      .ok (searchResults [sbRajesh, sbRajeev] "RAJ") :=
  ⟨by decide, (searchCustomers_spec [sbRajesh, sbRajeev] "RAJ").2.1 (by decide)⟩

end Shagoon
